import Mathlib

/-!
Verification of the discussion-feed, login-form and dashboard-routing logic
of the robinhood clone frontend (src/frontend/src/components/Discussion.tsx,
src/frontend/src/app/login/page.tsx, src/frontend/src/app/page.tsx).

The React components are embedded shallowly: each event handler becomes a
pure function from the component state (and the observed network response)
to the next state together with the network requests it issued; the
polling effect becomes a step relation over timer states.
-/

/-- Whitespace in the sense of the JavaScript String.trim method: space,
tab, line feed, carriage return, vertical tab, form feed. -/
def jsWhitespace (c : Char) : Bool :=
  c = ' ' || c = '\t' || c = '\n' || c = '\r' ||
  c = Char.ofNat 11 || c = Char.ofNat 12

/-- The JavaScript String.trim method: strips leading and trailing
whitespace characters. -/
def jsTrim (s : String) : String :=
  String.mk (((s.data.dropWhile jsWhitespace).reverse.dropWhile jsWhitespace).reverse)

namespace Discussion

/-- The Message interface of Discussion.tsx. -/
structure Message where
  id : Nat
  content : String
  username : String
  created_at : String
deriving DecidableEq, Repr

/-- The local state of the Discussion component: the three useState hooks
(messages, newMessage, error). -/
structure DiscussionState where
  messages : List Message
  newMessage : String
  error : String
deriving DecidableEq, Repr

/-- Outcome of the GET /api/discussions call observed by fetchMessages:
either a parsed array of messages, or a failure (non-ok status, network
error, or a body that fails to parse -- all reach the same catch block). -/
inductive FetchResult where
  | ok (data : List Message)
  | failure
deriving DecidableEq, Repr

/-- Outcome of the POST /api/discussions call observed by handleSubmit. -/
inductive PostResult where
  | ok (data : Message)
  | failure
deriving DecidableEq, Repr

/-- A POST request to /api/discussions; the body is
JSON.stringify ({content : newMessage}), so we record the content field. -/
structure PostRequest where
  content : String
deriving DecidableEq, Repr

/-- The fetchMessages handler of Discussion.tsx: on success it replaces the
whole message list by the parsed response; on any failure it sets the error
string and touches nothing else. -/
def fetchMessages (s : DiscussionState) (resp : FetchResult) : DiscussionState :=
  match resp with
  | .ok data => { s with messages := data }
  | .failure => { s with error := "Failed to load messages" }

/-- The handleSubmit handler of Discussion.tsx: if the trimmed input is
empty it returns at once (issuing no request); otherwise it POSTs the
untrimmed input, and on success conses the returned message onto the list
and clears the input, while on failure it sets the error string. The second
component lists the requests issued. -/
def handleSubmit (s : DiscussionState) (resp : PostResult) :
    DiscussionState × List PostRequest :=
  if jsTrim s.newMessage = "" then (s, [])
  else
    match resp with
    | .ok data =>
        ({ s with messages := data :: s.messages, newMessage := "" },
         [⟨s.newMessage⟩])
    | .failure =>
        ({ s with error := "Failed to send message" }, [⟨s.newMessage⟩])

namespace Poll

/-- Events affecting the polling effect of Discussion.tsx: the viewer
logging in or out (the isAuthenticated dependency of the useEffect
changing), the component unmounting, and a 10-second timer tick. -/
inductive Event where
  | login
  | logout
  | unmount
  | tick
deriving DecidableEq, Repr

/-- Timer state of the polling effect: whether the viewer is
authenticated and whether the setInterval handle is live. -/
structure State where
  isAuthenticated : Bool
  timerActive : Bool
deriving DecidableEq, Repr

/-- The interval passed to setInterval in Discussion.tsx, in
milliseconds. -/
def intervalMs : Nat := 10000

/-- One step of the polling effect. The second component counts the
fetchMessages calls the step fires. Login runs the effect body (an
immediate fetch plus setInterval); logout and unmount run the cleanup
(clearInterval), so the timer goes dead; a tick fires a fetch only while
the interval handle is live. -/
def step : State → Event → State × Nat
  | _, .login => (⟨true, true⟩, 1)
  | _, .logout => (⟨false, false⟩, 0)
  | s, .unmount => (⟨s.isAuthenticated, false⟩, 0)
  | s, .tick => (s, if s.timerActive then 1 else 0)

/-- Run a sequence of polling events, accumulating the number of
fetchMessages calls fired. -/
def run : State → List Event → State × Nat
  | s, [] => (s, 0)
  | s, e :: es => ((run (step s e).1 es).1, (step s e).2 + (run (step s e).1 es).2)

end Poll

end Discussion

namespace LoginPage

/-- An authentication API call issued by the login page after validation
passes: login sends username and password, register also sends the
email. -/
inductive AuthCall where
  | login (username password : String)
  | register (username email password : String)
deriving DecidableEq, Repr

/-- The validateForm function of login/page.tsx. Returns the inline error
message set by the first failing check, or none when validation passes.
The emptiness disjuncts mirror the JavaScript falsiness tests on the raw
strings. -/
def validateForm (isLogin : Bool) (username email password : String) :
    Option String :=
  if username = "" ∨ (jsTrim username).length < 3 then
    some "Username must be at least 3 characters long"
  else if password = "" ∨ password.length < 6 then
    some "Password must be at least 6 characters long"
  else if isLogin = false ∧ (email = "" ∨ email.data.contains '@' = false) then
    some "Please enter a valid email address"
  else none

/-- The handleSubmit handler of login/page.tsx, up to the auth API call it
issues: none when validation fails (no network call), otherwise the login
or register call depending on the mode toggle. -/
def handleSubmit (isLogin : Bool) (username email password : String) :
    Option AuthCall :=
  match validateForm isLogin username email password with
  | some _ => none
  | none =>
      some (if isLogin then .login username password
            else .register username email password)

end LoginPage

namespace Home

/-- What the Home component of app/page.tsx renders: the loading spinner,
nothing (the null branch for unauthenticated viewers), or the dashboard. -/
inductive RenderResult where
  | spinner
  | empty
  | dashboard
deriving DecidableEq, Repr

/-- The redirect useEffect of app/page.tsx: pushes /login onto the router
whenever the viewer is not authenticated. -/
def redirectEffect (isAuthenticated : Bool) : Option String :=
  if isAuthenticated then none else some "/login"

/-- The render body of app/page.tsx: spinner while auth state is loading,
null when unauthenticated, the dashboard otherwise. -/
def render (isLoading isAuthenticated : Bool) : RenderResult :=
  if isLoading then .spinner
  else if isAuthenticated then .dashboard
  else .empty

end Home

theorem length_dropWhile_le {α : Type} (p : α → Bool) (l : List α) :
    (l.dropWhile p).length ≤ l.length := by
  induction l with
  | nil => simp
  | cons a l ih =>
    rw [List.dropWhile_cons]
    split
    · exact Nat.le_succ_of_le ih
    · exact Nat.le_refl _

theorem length_jsTrim_le (s : String) : (jsTrim s).length ≤ s.length := by
  show (((s.data.dropWhile jsWhitespace).reverse.dropWhile jsWhitespace).reverse).length
      ≤ s.data.length
  rw [List.length_reverse]
  calc ((s.data.dropWhile jsWhitespace).reverse.dropWhile jsWhitespace).length
      ≤ (s.data.dropWhile jsWhitespace).reverse.length := length_dropWhile_le _ _
    _ = (s.data.dropWhile jsWhitespace).length := List.length_reverse _
    _ ≤ s.data.length := length_dropWhile_le _ _

theorem poll_run_fetches_zero (s : Discussion.Poll.State)
    (es : List Discussion.Poll.Event) (hA : s.timerActive = false)
    (hL : Discussion.Poll.Event.login ∉ es) :
    (Discussion.Poll.run s es).2 = 0 := by
  induction es generalizing s with
  | nil => rfl
  | cons e es ih =>
    have hne : e ≠ Discussion.Poll.Event.login := by
      intro h; exact hL (h ▸ List.mem_cons_self e es)
    have hL2 : Discussion.Poll.Event.login ∉ es := fun h => hL (List.mem_cons_of_mem e h)
    cases e with
    | login => exact absurd rfl hne
    | logout =>
        show (0 + (Discussion.Poll.run ⟨false, false⟩ es).2) = 0
        rw [ih ⟨false, false⟩ rfl hL2]
    | unmount =>
        show (0 + (Discussion.Poll.run ⟨s.isAuthenticated, false⟩ es).2) = 0
        rw [ih ⟨s.isAuthenticated, false⟩ rfl hL2]
    | tick =>
        show ((if s.timerActive then 1 else 0) + (Discussion.Poll.run s es).2) = 0
        rw [hA, ih s hA hL2]
        simp

/-- C1: submitting with an empty or whitespace-only input issues no request
and leaves the state (messages, input field, error string) unchanged. -/
theorem c1_empty_submit_noop (s : Discussion.DiscussionState)
    (resp : Discussion.PostResult) (h : jsTrim s.newMessage = "") :
    Discussion.handleSubmit s resp = (s, []) := by
  simp [Discussion.handleSubmit, h]

/-- Witness for c1_empty_submit_noop at the whitespace-only input " ". -/
theorem c1_empty_submit_noop_witness :
    Discussion.handleSubmit ⟨[], " ", ""⟩ Discussion.PostResult.failure
      = (⟨[], " ", ""⟩, []) :=
  c1_empty_submit_noop ⟨[], " ", ""⟩ Discussion.PostResult.failure (by decide)

/-- C2: on a successful POST with non-whitespace input, exactly the returned
message is consed onto the front of the previous list, which follows
unchanged as the tail, and the input field is cleared. -/
theorem c2_success_prepends (s : Discussion.DiscussionState)
    (m : Discussion.Message) (h : jsTrim s.newMessage ≠ "") :
    (Discussion.handleSubmit s (.ok m)).1.messages = m :: s.messages ∧
    (Discussion.handleSubmit s (.ok m)).1.newMessage = "" := by
  simp [Discussion.handleSubmit, h]

/-- Witness for c2_success_prepends at input "hi" and one prior message. -/
theorem c2_success_prepends_witness :
    (Discussion.handleSubmit ⟨[⟨1, "old", "u", "t"⟩], "hi", ""⟩
        (.ok ⟨2, "hi", "v", "t2"⟩)).1.messages
      = [⟨2, "hi", "v", "t2"⟩, ⟨1, "old", "u", "t"⟩] ∧
    (Discussion.handleSubmit ⟨[⟨1, "old", "u", "t"⟩], "hi", ""⟩
        (.ok ⟨2, "hi", "v", "t2"⟩)).1.newMessage = "" :=
  c2_success_prepends ⟨[⟨1, "old", "u", "t"⟩], "hi", ""⟩ ⟨2, "hi", "v", "t2"⟩
    (by decide)

/-- C3: a failed fetch leaves the message list exactly as it was and sets
the error string to "Failed to load messages". -/
theorem c3_fetch_failure_preserves (s : Discussion.DiscussionState) :
    (Discussion.fetchMessages s .failure).messages = s.messages ∧
    (Discussion.fetchMessages s .failure).error = "Failed to load messages" := by
  simp [Discussion.fetchMessages]

/-- C4: a successful fetch replaces the whole local message list with
exactly the response array. -/
theorem c4_fetch_success_replaces (s : Discussion.DiscussionState)
    (data : List Discussion.Message) :
    (Discussion.fetchMessages s (.ok data)).messages = data := by
  simp [Discussion.fetchMessages]

/-- C5: the polling interval is 10 seconds; a tick fires a refresh while
the timer is live after login; and after a logout step (which clears the
interval), no sequence of further events avoiding login ever fires a
fetch. -/
theorem c5_no_fetch_after_logout (s : Discussion.Poll.State)
    (es : List Discussion.Poll.Event)
    (hL : Discussion.Poll.Event.login ∉ es) :
    Discussion.Poll.intervalMs = 10000 ∧
    (Discussion.Poll.step ⟨true, true⟩ .tick).2 = 1 ∧
    (Discussion.Poll.step s .logout).1.isAuthenticated = false ∧
    (Discussion.Poll.run (Discussion.Poll.step s .logout).1 es).2 = 0 := by
  refine ⟨rfl, rfl, rfl, ?_⟩
  exact poll_run_fetches_zero ⟨false, false⟩ es rfl hL

/-- Witness for c5_no_fetch_after_logout: after logging out, two ticks and
an unmount fire no fetch. -/
theorem c5_no_fetch_after_logout_witness :
    Discussion.Poll.intervalMs = 10000 ∧
    (Discussion.Poll.step ⟨true, true⟩ .tick).2 = 1 ∧
    (Discussion.Poll.step ⟨true, true⟩ .logout).1.isAuthenticated = false ∧
    (Discussion.Poll.run (Discussion.Poll.step ⟨true, true⟩ .logout).1
        [.tick, .unmount, .tick]).2 = 0 :=
  c5_no_fetch_after_logout ⟨true, true⟩ [.tick, .unmount, .tick] (by decide)

/-- C6: validation passes only if the username has at least 3 characters,
the password at least 6, and, in register mode, the email contains "@";
when it passes an auth call is attempted; in login mode the email field is
never consulted; and a failing check (an inline error) prevents the auth
call. -/
theorem c6_validation (isLogin : Bool) (u e p : String) :
    (LoginPage.validateForm isLogin u e p = none →
       3 ≤ u.length ∧ 6 ≤ p.length ∧
       (isLogin = false → e.data.contains '@' = true) ∧
       LoginPage.handleSubmit isLogin u e p ≠ none) ∧
    (∀ e2 : String,
       LoginPage.validateForm true u e2 p = LoginPage.validateForm true u e p) ∧
    (LoginPage.validateForm isLogin u e p ≠ none →
       LoginPage.handleSubmit isLogin u e p = none) := by
  refine ⟨?_, ?_, ?_⟩
  · intro h
    have hv := h
    unfold LoginPage.validateForm at h
    split at h
    · exact absurd h (by simp)
    split at h
    · exact absurd h (by simp)
    split at h
    · exact absurd h (by simp)
    rename_i h1 h2 h3
    push_neg at h1 h2
    refine ⟨le_trans h1.2 (length_jsTrim_le u), h2.2, ?_, ?_⟩
    · intro hlog
      rcases not_and_or.mp h3 with h4 | h4
      · exact absurd hlog h4
      · push_neg at h4
        exact eq_true_of_ne_false h4.2
    · unfold LoginPage.handleSubmit
      rw [hv]
      simp
  · intro e2
    simp [LoginPage.validateForm]
  · intro h
    unfold LoginPage.handleSubmit
    cases hv : LoginPage.validateForm isLogin u e p with
    | none => exact absurd hv h
    | some msg => rfl

/-- Witness for c6_validation: registration with a 5-character username, a
7-character password and an email containing "@" attempts the call. -/
theorem c6_validation_witness :
    3 ≤ ("alice" : String).length ∧ 6 ≤ ("secret1" : String).length ∧
    (false = false → ("a@b.com" : String).data.contains '@' = true) ∧
    LoginPage.handleSubmit false "alice" "a@b.com" "secret1" ≠ none :=
  (c6_validation false "alice" "a@b.com" "secret1").1 (by decide)

/-- C7: once auth loading has finished, an unauthenticated viewer of the
dashboard is redirected to /login and the dashboard renders nothing. -/
theorem c7_unauthenticated_redirect (isLoading isAuthenticated : Bool)
    (hl : isLoading = false) (ha : isAuthenticated = false) :
    Home.redirectEffect isAuthenticated = some "/login" ∧
    Home.render isLoading isAuthenticated = Home.RenderResult.empty := by
  subst hl; subst ha
  exact ⟨rfl, rfl⟩

/-- Witness for c7_unauthenticated_redirect with both flags false. -/
theorem c7_unauthenticated_redirect_witness :
    Home.redirectEffect false = some "/login" ∧
    Home.render false false = Home.RenderResult.empty :=
  c7_unauthenticated_redirect false false rfl rfl

/-- C8: on a failed POST with non-whitespace input, the error string is set
to "Failed to send message" and the input field keeps the typed text. -/
theorem c8_send_failure (s : Discussion.DiscussionState)
    (h : jsTrim s.newMessage ≠ "") :
    (Discussion.handleSubmit s .failure).1.error = "Failed to send message" ∧
    (Discussion.handleSubmit s .failure).1.newMessage = s.newMessage := by
  simp [Discussion.handleSubmit, h]

/-- Witness for c8_send_failure at input "hello". -/
theorem c8_send_failure_witness :
    (Discussion.handleSubmit ⟨[], "hello", ""⟩ .failure).1.error
      = "Failed to send message" ∧
    (Discussion.handleSubmit ⟨[], "hello", ""⟩ .failure).1.newMessage = "hello" :=
  c8_send_failure ⟨[], "hello", ""⟩ (by decide)

/-- C9: the success branches of fetchMessages and handleSubmit never touch
the error string, so an error set by an earlier failure persists across
every later success until another failure overwrites it. -/
theorem c9_success_keeps_error (s : Discussion.DiscussionState)
    (data : List Discussion.Message) (m : Discussion.Message) :
    (Discussion.fetchMessages s (.ok data)).error = s.error ∧
    (Discussion.handleSubmit s (.ok m)).1.error = s.error := by
  constructor
  · simp [Discussion.fetchMessages]
  · unfold Discussion.handleSubmit
    split <;> simp

/-- C10: whenever a POST is issued (trimmed input non-empty), its content
field carries the input string verbatim, untrimmed. -/
theorem c10_body_verbatim (s : Discussion.DiscussionState)
    (resp : Discussion.PostResult) (h : jsTrim s.newMessage ≠ "") :
    (Discussion.handleSubmit s resp).2 = [⟨s.newMessage⟩] := by
  unfold Discussion.handleSubmit
  rw [if_neg h]
  cases resp <;> simp

/-- Witness for c10_body_verbatim: the padded input " hi " is sent with its
whitespace intact, not as its trimmed form "hi". -/
theorem c10_body_verbatim_witness :
    (Discussion.handleSubmit ⟨[], " hi ", ""⟩ .failure).2
        = [⟨" hi "⟩] ∧ (" hi " : String) ≠ "hi" :=
  ⟨c10_body_verbatim ⟨[], " hi ", ""⟩ .failure (by decide), by decide⟩
